import Mathlib

/-!
Verification of the SIP (Systematic Investment Plan) calculator in
src/unnamed/part_000 (component MutualFundCalculator, React Native / TypeScript).

The source computes, from three raw text inputs:
  P = parseFloat(monthlyInvestment), rate = parseFloat(annualRate),
  years = parseFloat(tenureYears)
validates them (isNaN(P) || P <= 0 || isNaN(rate) || rate < 0 ||
isNaN(years) || years <= 0), and on success evaluates
  i = rate / 12 / 100, n = years * 12,
  futureValue = P * ((Math.pow(1 + i, n) - 1) / i),
  totalInvested = P * n,
  estimatedReturns = futureValue - totalInvested.

Embedding conventions:
* JavaScript numbers in the calculation are modelled exactly as an inductive
  type over the reals with explicit NaN and signed Infinity (IEEE doubles
  idealised to exact real arithmetic; rounding error, overflow of finite
  values, and the sign of zero are not modelled).
* parseFloat is modelled executably, following the ECMAScript
  StrDecimalLiteral grammar: leading whitespace skipped, optional sign, then
  either the keyword Infinity or decimal digits with optional fraction and
  optional exponent; the longest valid numeric prefix wins and no valid
  prefix means NaN.  A finite parse is kept exactly as a sign, a mantissa
  and a decimal exponent, so the value is (-1)^neg * m * 10^e; this keeps
  the whole parse-and-validate pipeline kernel-computable.  (An exponent
  large enough to overflow a double is kept exact here.)
* The display helper formatCurrency is modelled executably over exact
  fractions (an integer numerator over a natural denominator), following the
  ECMAScript semantics of Number.prototype.toFixed(2) (round half away from
  zero to a count of hundredths, then render sign, integer digits, dot, two
  fraction digits; the fallback to exponential notation at 1e21 is a
  double-range artifact outside this exact model) and of the grouping regex
  replace(/\B(?=(\d\x7b3\x7d)+(?!\d))/g, ","), whose effect on a toFixed(2)
  string is to insert "," into the integer digit run every three digits from
  the right (never before the first digit, never in the two-digit fraction).
-/

/-- Result of parseFloat: NaN, a signed Infinity (from the literal keyword
Infinity), or an exact finite value (-1)^neg * m * 10^e. -/
inductive JSParse where
  | nan : JSParse
  | infinity (neg : Bool) : JSParse
  | val (neg : Bool) (m : ℕ) (e : ℤ) : JSParse
deriving DecidableEq, Repr

/-- Whitespace characters skipped by parseFloat (ECMAScript WhiteSpace and
LineTerminator; the common ASCII ones plus NBSP suffice here). -/
def isWsChar (c : Char) : Bool :=
  c == ' ' || c == '\t' || c == '\n' || c == '\r' ||
  c == '\x0b' || c == '\x0c' || c == '\xa0'

/-- Numeric value of a decimal digit character. -/
def digitVal (c : Char) : ℕ := c.toNat - 48

/-- Value of a digit run read as a decimal natural number. -/
def intVal (ds : List Char) : ℕ := ds.foldl (fun a c => 10 * a + digitVal c) 0

/-- Decimal exponent contributed by an ExponentPart at the given position:
e or E, optional sign, then digits; if the digits are missing the exponent
is not part of the longest valid numeric literal and contributes 0. -/
def expInt (cs : List Char) : ℤ :=
  match cs with
  | 'e' :: rest | 'E' :: rest =>
    let (eneg, rest2) :=
      match rest with
      | '-' :: r => (true, r)
      | '+' :: r => (false, r)
      | r => (false, r)
    let eds := rest2.takeWhile Char.isDigit
    if eds.isEmpty then 0
    else if eneg then -(intVal eds : ℤ) else (intVal eds : ℤ)
  | _ => 0

/-- Mantissa and decimal exponent of the longest StrUnsignedDecimalLiteral
numeric prefix (digits [. digits] [exponent], or . digits [exponent]);
none when no such prefix exists.  The encoded value is m * 10^e. -/
def parseUnsigned (cs : List Char) : Option (ℕ × ℤ) :=
  match cs.span Char.isDigit with
  | ([], '.' :: r2) =>
    match r2.span Char.isDigit with
    | ([], _) => none
    | (fs, r3) => some (intVal fs, expInt r3 - fs.length)
  | ([], _) => none
  | (ds, '.' :: r2) =>
    match r2.span Char.isDigit with
    | (fs, r3) => some (intVal ds * 10 ^ fs.length + intVal fs, expInt r3 - fs.length)
  | (ds, r) => some (intVal ds, expInt r)

/-- Model of JavaScript parseFloat (ECMAScript 19.2.4): skip leading
whitespace, read an optional sign, then either the keyword Infinity or the
longest unsigned decimal literal; anything else is NaN. -/
def parseFloat (s : String) : JSParse :=
  let cs := s.toList.dropWhile isWsChar
  let (neg, cs2) :=
    match cs with
    | '-' :: r => (true, r)
    | '+' :: r => (false, r)
    | r => (false, r)
  match cs2 with
  | 'I' :: 'n' :: 'f' :: 'i' :: 'n' :: 'i' :: 't' :: 'y' :: _ => .infinity neg
  | rest =>
    match parseUnsigned rest with
    | none => .nan
    | some (m, e) => .val neg m e

/-- JavaScript isNaN on a parse result. -/
def jsIsNaN : JSParse → Bool
  | .nan => true
  | _ => false

/-- JavaScript comparison x <= 0 on a parse result: false for NaN, true for
-Infinity, false for +Infinity; a finite value (-1)^neg * m * 10^e is <= 0
exactly when the mantissa is zero or the sign is negative (10^e > 0). -/
def jsLeZero : JSParse → Bool
  | .nan => false
  | .infinity neg => neg
  | .val neg m _ => neg || decide (m = 0)

/-- JavaScript comparison x < 0 on a parse result: false for NaN, true for
-Infinity, false for +Infinity; a finite value (-1)^neg * m * 10^e is < 0
exactly when the sign is negative and the mantissa is nonzero. -/
def jsLtZero : JSParse → Bool
  | .nan => false
  | .infinity neg => neg
  | .val neg m _ => neg && decide (m ≠ 0)

/-- The validation condition of calculateSIP (source line 52):
isNaN(P) || P <= 0 || isNaN(rate) || rate < 0 || isNaN(years) || years <= 0
on the three parseFloat results. -/
def validationFails (m r y : String) : Bool :=
  jsIsNaN (parseFloat m) || jsLeZero (parseFloat m) ||
  jsIsNaN (parseFloat r) || jsLtZero (parseFloat r) ||
  jsIsNaN (parseFloat y) || jsLeZero (parseFloat y)

/-- A JavaScript number in the calculation, idealised over exact reals:
a finite value, a signed Infinity, or NaN.  The sign of zero is not
modelled, and finite values never overflow. -/
inductive JSNum where
  | num (x : ℝ) : JSNum
  | inf (neg : Bool) : JSNum
  | nan : JSNum

open Classical in
/-- JavaScript addition. -/
noncomputable def jsAdd : JSNum → JSNum → JSNum
  | .nan, _ => .nan
  | _, .nan => .nan
  | .num x, .num y => .num (x + y)
  | .num _, .inf s => .inf s
  | .inf s, .num _ => .inf s
  | .inf s, .inf t => if s = t then .inf s else .nan

open Classical in
/-- JavaScript subtraction. -/
noncomputable def jsSub : JSNum → JSNum → JSNum
  | .nan, _ => .nan
  | _, .nan => .nan
  | .num x, .num y => .num (x - y)
  | .num _, .inf s => .inf !s
  | .inf s, .num _ => .inf s
  | .inf s, .inf t => if s = t then .nan else .inf s

open Classical in
/-- JavaScript multiplication (0 times an Infinity is NaN). -/
noncomputable def jsMul : JSNum → JSNum → JSNum
  | .nan, _ => .nan
  | _, .nan => .nan
  | .num x, .num y => .num (x * y)
  | .num x, .inf s => if x = 0 then .nan else .inf (xor s (decide (x < 0)))
  | .inf s, .num y => if y = 0 then .nan else .inf (xor s (decide (y < 0)))
  | .inf s, .inf t => .inf (xor s t)

open Classical in
/-- JavaScript division.  A nonzero finite value divided by zero is a signed
Infinity, 0 / 0 is NaN (the sign of a zero divisor is not modelled; a
negative-zero divisor does not occur in this program). -/
noncomputable def jsDiv : JSNum → JSNum → JSNum
  | .nan, _ => .nan
  | _, .nan => .nan
  | .num x, .num y =>
    if y = 0 then (if x = 0 then .nan else .inf (decide (x < 0)))
    else .num (x / y)
  | .num _, .inf _ => .num 0
  | .inf s, .num y => .inf (xor s (decide (y < 0)))
  | .inf _, .inf _ => .nan

open Classical in
/-- JavaScript Math.pow.  For a nonnegative finite base and finite exponent
this is the real power; a negative finite base with a non-integer exponent is
NaN (the integer-exponent subcase, and odd-integer exponents on a -Infinity
base, are not distinguished here: in this program the base is 1 + i with
i >= 0, so those branches are unreachable).  Math.pow(x, 0) is 1 even for
NaN x; an exponent of +-Infinity follows the ECMAScript table on the
magnitude of the base. -/
noncomputable def jsPow : JSNum → JSNum → JSNum
  | _, .nan => .nan
  | .nan, .num y => if y = 0 then .num 1 else .nan
  | .nan, .inf _ => .nan
  | .num x, .num y => if 0 ≤ x then .num (x ^ y) else .nan
  | .num x, .inf s =>
    if x = 1 ∨ x = -1 then .nan
    else if (decide (1 < |x|)) = !s then .inf false else .num 0
  | .inf _, .num y => if y = 0 then .num 1 else if 0 < y then .inf false else .num 0
  | .inf _, .inf s => if s then .num 0 else .inf false

/-- JavaScript comparison a >= b (false whenever either side is NaN). -/
def jsGe : JSNum → JSNum → Prop
  | .nan, _ => False
  | _, .nan => False
  | .num x, .num y => y ≤ x
  | .num _, .inf s => s = true
  | .inf s, .num _ => s = false
  | .inf s, .inf t => s = false ∨ t = true

/-- The derived result triple (source interface CalculationResults). -/
structure CalculationResults where
  futureValue : JSNum
  totalInvested : JSNum
  estimatedReturns : JSNum

/-- The arithmetic core of calculateSIP (source lines 64 to 70), evaluated on
already-parsed JavaScript numbers:
i = rate / 12 / 100, n = years * 12,
futureValue = P * ((Math.pow(1 + i, n) - 1) / i), totalInvested = P * n,
estimatedReturns = futureValue - totalInvested. -/
noncomputable def calculateSIPCore (P rate years : JSNum) : CalculationResults :=
  let i := jsDiv (jsDiv rate (.num 12)) (.num 100)
  let n := jsMul years (.num 12)
  let calculatedFV := jsMul P (jsDiv (jsSub (jsPow (jsAdd (.num 1) i) n) (.num 1)) i)
  let calculatedTotalInvested := jsMul P n
  let calculatedEstimatedReturns := jsSub calculatedFV calculatedTotalInvested
  ⟨calculatedFV, calculatedTotalInvested, calculatedEstimatedReturns⟩

/-- A parse result used as a JavaScript number; a finite parse denotes the
real value (-1)^neg * m * 10^e. -/
noncomputable def toJSNum : JSParse → JSNum
  | .nan => .nan
  | .infinity s => .inf s
  | .val neg m e => .num ((if neg then -1 else 1) * (m : ℝ) * (10 : ℝ) ^ e)

/-- The screen state of MutualFundCalculator: the three raw input strings,
the three nullable result fields, and the isCalculated flag. -/
structure ScreenState where
  monthlyInvestment : String
  annualRate : String
  tenureYears : String
  futureValue : Option JSNum
  totalInvested : Option JSNum
  estimatedReturns : Option JSNum
  isCalculated : Bool

/-- The calculateSIP handler (source lines 43 to 83) as a state transformer:
parse the three inputs; on validation failure clear the flag and all three
result fields; otherwise store the computed results and set the flag.
(Keyboard dismissal and the alert are UI effects with no bearing on state.) -/
noncomputable def calculateSIP (s : ScreenState) : ScreenState :=
  if validationFails s.monthlyInvestment s.annualRate s.tenureYears then
    { s with isCalculated := false, futureValue := none,
             totalInvested := none, estimatedReturns := none }
  else
    let r := calculateSIPCore (toJSNum (parseFloat s.monthlyInvestment))
      (toJSNum (parseFloat s.annualRate)) (toJSNum (parseFloat s.tenureYears))
    { s with futureValue := some r.futureValue,
             totalInvested := some r.totalInvested,
             estimatedReturns := some r.estimatedReturns,
             isCalculated := true }

/-- The render condition of the results section (source line 148):
isCalculated && futureValue !== null && totalInvested !== null &&
estimatedReturns !== null. -/
def showsResult (s : ScreenState) : Bool :=
  s.isCalculated && s.futureValue.isSome && s.totalInvested.isSome &&
  s.estimatedReturns.isSome

/-- ValidatedInputs (spec section 3): a parsed numeric triple carrying the
guarantees established by successful validation. -/
structure ValidatedInputs where
  P : ℝ
  ratePercent : ℝ
  years : ℝ
  hP : 0 < P
  hrate : 0 ≤ ratePercent
  hyears : 0 < years

/-- The calculation core applied to a ValidatedInputs triple. -/
noncomputable def calcOn (v : ValidatedInputs) : CalculationResults :=
  calculateSIPCore (.num v.P) (.num v.ratePercent) (.num v.years)

/-- Decimal digit characters of a natural number, most significant first
(just "0" for zero); fuel-driven so the recursion is structural. -/
def natDigitsAux : ℕ → ℕ → List Char → List Char
  | 0, _, acc => acc
  | fuel + 1, n, acc =>
    if n < 10 then Nat.digitChar n :: acc
    else natDigitsAux fuel (n / 10) (Nat.digitChar (n % 10) :: acc)

/-- Decimal digit characters of a natural number, most significant first. -/
def natDigits (n : ℕ) : List Char := natDigitsAux (n + 1) n []

/-- Comma insertion on a reversed digit run: walking from the least
significant digit, a comma is placed before every digit whose position is a
positive multiple of three.  This is the effect of the source regex
replace(/\B(?=(\d\x7b3\x7d)+(?!\d))/g, ",") on the integer digit run of a
toFixed(2) string. -/
def gRev : ℕ → List Char → List Char
  | _, [] => []
  | k, c :: rest =>
    if k % 3 = 0 ∧ k ≠ 0 then ',' :: c :: gRev (k + 1) rest
    else c :: gRev (k + 1) rest

/-- Thousands grouping of a digit run: a comma every three digits counted
from the right, never before the first digit. -/
def groupThrees (ds : List Char) : List Char := (gRev 0 ds.reverse).reverse

/-- An exact finite value num / den for the display layer, kept as an
unnormalized fraction so the formatter is kernel-computable (den is intended
positive; theorems assume it). -/
structure Frac where
  num : ℤ
  den : ℕ
deriving DecidableEq, Repr

/-- The argument of formatCurrency: null or a JavaScript number, with NaN
and the signed Infinities explicit and finite values exact. -/
inductive JSValue where
  | null : JSValue
  | nan : JSValue
  | infinity (neg : Bool) : JSValue
  | num (v : Frac) : JSValue
deriving DecidableEq, Repr

/-- Model of the formatCurrency helper (source lines 86 to 93):
null or NaN yields the fixed string; otherwise toFixed(2) (round half away
from zero: hundredths = floor(|v| * 100 + 1/2) computed here as
(200 * |num| + den) / (2 * den) in natural division; then render sign,
integer digits, dot, two fraction digits; an Infinity renders as the word
Infinity) followed by the grouping regex, prefixed by the rupee sign and a
space. -/
def formatCurrency : JSValue → String
  | .null => "₹ 0.00"
  | .nan => "₹ 0.00"
  | .infinity neg => if neg then "₹ -Infinity" else "₹ Infinity"
  | .num v =>
    let h : ℕ := (200 * v.num.natAbs + v.den) / (2 * v.den)
    let sign : List Char := if v.num < 0 then ['-'] else []
    let ip : List Char := groupThrees (natDigits (h / 100))
    let fp : List Char := [Nat.digitChar (h % 100 / 10), Nat.digitChar (h % 10)]
    "₹ " ++ String.mk (sign ++ ip ++ ['.'] ++ fp)

@[simp] lemma jsAdd_num (x y : ℝ) : jsAdd (.num x) (.num y) = .num (x + y) := rfl

@[simp] lemma jsSub_num (x y : ℝ) : jsSub (.num x) (.num y) = .num (x - y) := rfl

@[simp] lemma jsMul_num (x y : ℝ) : jsMul (.num x) (.num y) = .num (x * y) := rfl

@[simp] lemma jsMul_num_nan (x : ℝ) : jsMul (.num x) .nan = .nan := rfl

@[simp] lemma jsSub_nan_left (b : JSNum) : jsSub .nan b = .nan := by
  cases b <;> rfl

lemma jsDiv_num_of_ne (x y : ℝ) (h : y ≠ 0) :
    jsDiv (.num x) (.num y) = .num (x / y) := by
  simp [jsDiv, h]

lemma jsDiv_num_zero_zero : jsDiv (.num 0) (.num 0) = .nan := by
  simp [jsDiv]

lemma jsPow_num_of_nonneg (x y : ℝ) (h : 0 ≤ x) :
    jsPow (.num x) (.num y) = .num (x ^ y) := by
  simp [jsPow, h]

/-- Evaluation of the calculation core on finite inputs with a nonzero
monthly rate: every intermediate stays finite and the closed formula comes
out. -/
lemma calculateSIPCore_num (P rate years : ℝ) (hrate : 0 ≤ rate) (hne : rate ≠ 0) :
    calculateSIPCore (.num P) (.num rate) (.num years) =
      ⟨.num (P * (((1 + rate / 12 / 100) ^ (years * 12) - 1) / (rate / 12 / 100))),
       .num (P * (years * 12)),
       .num (P * (((1 + rate / 12 / 100) ^ (years * 12) - 1) / (rate / 12 / 100)) -
         P * (years * 12))⟩ := by
  have h12 : (12 : ℝ) ≠ 0 := by norm_num
  have h100 : (100 : ℝ) ≠ 0 := by norm_num
  have hi : rate / 12 / 100 ≠ 0 := by
    exact div_ne_zero (div_ne_zero hne h12) h100
  have hb : (0 : ℝ) ≤ 1 + rate / 12 / 100 := by positivity
  rw [calculateSIPCore]
  rw [jsDiv_num_of_ne rate 12 h12, jsDiv_num_of_ne _ 100 h100]
  rw [jsMul_num, jsAdd_num, jsPow_num_of_nonneg _ _ hb, jsSub_num,
    jsDiv_num_of_ne _ _ hi, jsMul_num, jsMul_num, jsSub_num]

/-- Evaluation of the calculation core at a zero rate: the code divides by
i = 0, Math.pow(1, n) - 1 = 0, and 0 / 0 is NaN, which then contaminates the
future value and the estimated returns. -/
lemma calculateSIPCore_zero (P years : ℝ) :
    calculateSIPCore (.num P) (.num 0) (.num years) =
      ⟨.nan, .num (P * (years * 12)), .nan⟩ := by
  have h0 : (0 : ℝ) / 12 / 100 = 0 := by norm_num
  rw [calculateSIPCore]
  rw [jsDiv_num_of_ne 0 12 (by norm_num), jsDiv_num_of_ne _ 100 (by norm_num)]
  rw [jsMul_num, jsAdd_num, h0, jsPow_num_of_nonneg _ _ (by norm_num), jsSub_num]
  norm_num [Real.one_rpow]
  exact ⟨by simp [jsDiv, jsMul], by simp [jsDiv, jsMul, jsSub]⟩

example : parseFloat "12abc" = .val false 12 0 := by decide
example : parseFloat "5000 rupees" = .val false 5000 0 := by decide
example : parseFloat " 10" = .val false 10 0 := by decide
example : parseFloat "Infinity" = .infinity false := by decide
example : parseFloat "-2.5e1" = .val true 25 0 := by decide
example : parseFloat ".5" = .val false 5 (-1) := by decide
example : parseFloat "abc" = .nan := by decide
example : parseFloat "" = .nan := by decide
example : parseFloat "12.e2" = .val false 12 2 := by decide
example : parseFloat "0x10" = .val false 0 0 := by decide
example : validationFails "abc" "12" "10" = true := by decide
example : validationFails "5000" "12" "10" = false := by decide
example : validationFails "Infinity" "12" "10" = false := by decide
example : validationFails "0" "12" "10" = true := by decide
example : validationFails "-5" "12" "10" = true := by decide
example : validationFails "5000" "-1" "10" = true := by decide
example : validationFails "5000" "0" "10" = false := by decide
example : validationFails "5000" "12" "0" = true := by decide
example : validationFails "" "12" "10" = true := by decide
example : formatCurrency (.num ⟨116169538, 100⟩) = "₹ 1,161,695.38" := by decide
example : formatCurrency .null = "₹ 0.00" := by decide
example : formatCurrency (.infinity false) = "₹ Infinity" := by decide
example : formatCurrency (.num ⟨-12345, 10⟩) = "₹ -1,234.50" := by decide
example : formatCurrency (.num ⟨0, 1⟩) = "₹ 0.00" := by decide
example : formatCurrency (.num ⟨-1, 1000⟩) = "₹ -0.00" := by decide

/-- C1: the spec demands that a zero monthly rate be special-cased with
futureValue = P * n and estimatedReturns = 0, but the code evaluates the
general formula unguarded: at the validated input P = 1000, ratePercent = 0,
years = 5 the division (Math.pow(1 + 0, 60) - 1) / 0 is 0 / 0 = NaN, so the
future value and the estimated returns are NaN while the claim requires
60000 and 0; only totalInvested comes out as 60000. -/
theorem C1_zero_rate_not_special_cased :
    (calculateSIPCore (.num 1000) (.num 0) (.num 5)).futureValue = JSNum.nan ∧
    (calculateSIPCore (.num 1000) (.num 0) (.num 5)).totalInvested = .num 60000 ∧
    (calculateSIPCore (.num 1000) (.num 0) (.num 5)).estimatedReturns = JSNum.nan := by
  rw [calculateSIPCore_zero]
  refine ⟨rfl, ?_, rfl⟩
  norm_num

/-- C6: whenever the rate is positive every field of the result is finite
and futureValue = totalInvested + estimatedReturns holds exactly, because
estimatedReturns is defined as futureValue - totalInvested. -/
theorem C6_sum_invariant (v : ValidatedInputs) (hr : 0 < v.ratePercent) :
    jsAdd (calcOn v).totalInvested (calcOn v).estimatedReturns =
      (calcOn v).futureValue := by
  rcases v with ⟨P, rate, years, hP, hra, hy⟩
  show jsAdd (calculateSIPCore (.num P) (.num rate) (.num years)).totalInvested
      (calculateSIPCore (.num P) (.num rate) (.num years)).estimatedReturns =
      (calculateSIPCore (.num P) (.num rate) (.num years)).futureValue
  rw [calculateSIPCore_num P rate years hra (ne_of_gt hr)]
  show jsAdd (.num _) (.num _) = _
  rw [jsAdd_num]
  ring_nf

/-- C6 witness: the invariant at the concrete validated input
P = 5000, ratePercent = 12, years = 10. -/
theorem C6_sum_invariant_witness :
    (0 : ℝ) < 12 ∧
    jsAdd (calcOn ⟨5000, 12, 10, by norm_num, by norm_num, by norm_num⟩).totalInvested
        (calcOn ⟨5000, 12, 10, by norm_num, by norm_num, by norm_num⟩).estimatedReturns =
      (calcOn ⟨5000, 12, 10, by norm_num, by norm_num, by norm_num⟩).futureValue :=
  ⟨by norm_num,
   C6_sum_invariant ⟨5000, 12, 10, by norm_num, by norm_num, by norm_num⟩ (by norm_num)⟩

/-- C7: any calculate action whose inputs fail validation leaves the screen
with no result: all three result fields null and the calculated flag false,
whatever was displayed before. -/
theorem C7_invalid_clears_result (s : ScreenState)
    (h : validationFails s.monthlyInvestment s.annualRate s.tenureYears = true) :
    (calculateSIP s).futureValue = none ∧
    (calculateSIP s).totalInvested = none ∧
    (calculateSIP s).estimatedReturns = none ∧
    (calculateSIP s).isCalculated = false := by
  simp [calculateSIP, h]

/-- C7 witness: the inputs ("abc", "12", "10") fail validation, and the
action clears a screen that was showing a stale result. -/
theorem C7_invalid_clears_result_witness :
    validationFails "abc" "12" "10" = true ∧
    ((calculateSIP ⟨"abc", "12", "10", some (.num 1), some (.num 2), some (.num 3),
        true⟩).futureValue = none ∧
     (calculateSIP ⟨"abc", "12", "10", some (.num 1), some (.num 2), some (.num 3),
        true⟩).totalInvested = none ∧
     (calculateSIP ⟨"abc", "12", "10", some (.num 1), some (.num 2), some (.num 3),
        true⟩).estimatedReturns = none ∧
     (calculateSIP ⟨"abc", "12", "10", some (.num 1), some (.num 2), some (.num 3),
        true⟩).isCalculated = false) :=
  ⟨by decide,
   C7_invalid_clears_result
     ⟨"abc", "12", "10", some (.num 1), some (.num 2), some (.num 3), true⟩ (by decide)⟩

/-- C8: the calculate action is a pure function of the three input strings:
two screen states that agree on the inputs produce identical result fields
and flag, regardless of any previously displayed result (no hidden state),
and the action always returns (it never fails). -/
theorem C8_pure_function_of_inputs (s t : ScreenState)
    (hm : s.monthlyInvestment = t.monthlyInvestment)
    (hr : s.annualRate = t.annualRate)
    (hy : s.tenureYears = t.tenureYears) :
    (calculateSIP s).futureValue = (calculateSIP t).futureValue ∧
    (calculateSIP s).totalInvested = (calculateSIP t).totalInvested ∧
    (calculateSIP s).estimatedReturns = (calculateSIP t).estimatedReturns ∧
    (calculateSIP s).isCalculated = (calculateSIP t).isCalculated := by
  simp only [calculateSIP, hm, hr, hy]
  by_cases h : validationFails t.monthlyInvestment t.annualRate t.tenureYears <;>
    simp [h]

/-- C8 witness: two states with the same inputs ("5000", "12", "10") but
different stale results and flags yield identical outcomes. -/
theorem C8_pure_function_of_inputs_witness :
    "5000" = "5000" ∧ "12" = "12" ∧ "10" = "10" ∧
    ((calculateSIP ⟨"5000", "12", "10", none, none, none, false⟩).futureValue =
       (calculateSIP ⟨"5000", "12", "10", some (.num 7), some (.num 8), some (.num 9),
         true⟩).futureValue ∧
     (calculateSIP ⟨"5000", "12", "10", none, none, none, false⟩).totalInvested =
       (calculateSIP ⟨"5000", "12", "10", some (.num 7), some (.num 8), some (.num 9),
         true⟩).totalInvested ∧
     (calculateSIP ⟨"5000", "12", "10", none, none, none, false⟩).estimatedReturns =
       (calculateSIP ⟨"5000", "12", "10", some (.num 7), some (.num 8), some (.num 9),
         true⟩).estimatedReturns ∧
     (calculateSIP ⟨"5000", "12", "10", none, none, none, false⟩).isCalculated =
       (calculateSIP ⟨"5000", "12", "10", some (.num 7), some (.num 8), some (.num 9),
         true⟩).isCalculated) :=
  ⟨rfl, rfl, rfl,
   C8_pure_function_of_inputs
     ⟨"5000", "12", "10", none, none, none, false⟩
     ⟨"5000", "12", "10", some (.num 7), some (.num 8), some (.num 9), true⟩
     rfl rfl rfl⟩

/-- C9: after any calculate action the screen is never partially populated:
either the flag is set and all three result fields hold values, or the flag
is clear and all three are null; and the results section renders exactly
when the flag is set. -/
theorem C9_no_partial_result_state (s : ScreenState) :
    (((calculateSIP s).isCalculated = true ∧
      (calculateSIP s).futureValue.isSome = true ∧
      (calculateSIP s).totalInvested.isSome = true ∧
      (calculateSIP s).estimatedReturns.isSome = true) ∨
     ((calculateSIP s).isCalculated = false ∧
      (calculateSIP s).futureValue = none ∧
      (calculateSIP s).totalInvested = none ∧
      (calculateSIP s).estimatedReturns = none)) ∧
    showsResult (calculateSIP s) = (calculateSIP s).isCalculated := by
  by_cases h : validationFails s.monthlyInvestment s.annualRate s.tenureYears <;>
    simp [calculateSIP, showsResult, h]

/-- C10: parsing is prefix-lenient: "12abc", "5000 rupees" and " 10" (with
leading whitespace) all parse to the value of their longest numeric prefix,
the triple passes validation, and the computed total invested uses exactly
those prefix values (5000 * 120 = 600000). -/
theorem C10_prefix_lenient_parsing :
    parseFloat "12abc" = JSParse.val false 12 0 ∧
    parseFloat "5000 rupees" = JSParse.val false 5000 0 ∧
    parseFloat " 10" = JSParse.val false 10 0 ∧
    validationFails "5000 rupees" "12abc" " 10" = false ∧
    (calculateSIP ⟨"5000 rupees", "12abc", " 10", none, none, none,
      false⟩).totalInvested = some (JSNum.num 600000) := by
  refine ⟨by decide, by decide, by decide, by decide, ?_⟩
  have hv : validationFails "5000 rupees" "12abc" " 10" = false := by decide
  simp only [calculateSIP, hv, Bool.false_eq_true, if_false]
  rw [show parseFloat "5000 rupees" = JSParse.val false 5000 0 from by decide,
    show parseFloat "12abc" = JSParse.val false 12 0 from by decide,
    show parseFloat " 10" = JSParse.val false 10 0 from by decide]
  rw [show toJSNum (JSParse.val false 5000 0) = .num 5000 from by
        simp [toJSNum],
      show toJSNum (JSParse.val false 12 0) = .num 12 from by
        simp [toJSNum],
      show toJSNum (JSParse.val false 10 0) = .num 10 from by
        simp [toJSNum]]
  rw [calculateSIPCore_num 5000 12 10 (by norm_num) (by norm_num)]
  norm_num

lemma valPos_iff (neg : Bool) (m : ℕ) (e : ℤ) :
    0 < (if neg then (-1 : ℝ) else 1) * (m : ℝ) * (10 : ℝ) ^ e ↔
      neg = false ∧ 0 < m := by
  have h10 : (0 : ℝ) < (10 : ℝ) ^ e := zpow_pos (by norm_num) e
  cases neg
  · rw [if_neg (by simp)]
    rw [one_mul]
    constructor
    · intro h
      refine ⟨rfl, ?_⟩
      by_contra hm
      have hm0 : m = 0 := by omega
      rw [hm0] at h
      norm_num at h
    · rintro ⟨-, hm⟩
      exact mul_pos (by exact_mod_cast hm) h10
  · rw [if_pos (by simp)]
    constructor
    · intro h
      have hge : (0 : ℝ) ≤ (m : ℝ) * (10 : ℝ) ^ e :=
        mul_nonneg (by positivity) (le_of_lt h10)
      nlinarith
    · rintro ⟨h, -⟩
      exact absurd h (by simp)

lemma valNonneg_iff (neg : Bool) (m : ℕ) (e : ℤ) :
    0 ≤ (if neg then (-1 : ℝ) else 1) * (m : ℝ) * (10 : ℝ) ^ e ↔
      (neg = false ∨ m = 0) := by
  have h10 : (0 : ℝ) < (10 : ℝ) ^ e := zpow_pos (by norm_num) e
  cases neg
  · rw [if_neg (by simp)]
    rw [one_mul]
    constructor
    · intro _
      exact Or.inl rfl
    · intro _
      have := le_of_lt h10
      positivity
  · rw [if_pos (by simp)]
    constructor
    · intro h
      right
      by_contra hm
      have hmpos : (0 : ℝ) < (m : ℝ) := by
        exact_mod_cast Nat.pos_of_ne_zero hm
      nlinarith
    · rintro (h | h)
      · exact absurd h (by simp)
      · rw [h]
        norm_num

lemma passStrict_iff (p : JSParse) :
    (jsIsNaN p || jsLeZero p) = false ↔
      ((∃ neg m e, p = .val neg m e ∧
          0 < (if neg then (-1 : ℝ) else 1) * (m : ℝ) * (10 : ℝ) ^ e) ∨
        p = .infinity false) := by
  cases p with
  | nan => simp [jsIsNaN, jsLeZero]
  | infinity s => cases s <;> simp [jsIsNaN, jsLeZero]
  | val neg m e =>
    simp only [jsIsNaN, jsLeZero, Bool.false_or]
    constructor
    · intro h
      have hneg : neg = false := by
        cases neg
        · rfl
        · exact absurd h (by simp)
      have hm : m ≠ 0 := by
        subst hneg
        simpa using h
      exact Or.inl ⟨neg, m, e, rfl,
        (valPos_iff neg m e).mpr ⟨hneg, Nat.pos_of_ne_zero hm⟩⟩
    · rintro (⟨neg2, m2, e2, heq, hpos⟩ | h)
      · injection heq with h1 h2 h3
        subst h1
        subst h2
        subst h3
        obtain ⟨hneg, hm⟩ := (valPos_iff neg m e).mp hpos
        subst hneg
        simpa using Nat.pos_iff_ne_zero.mp hm
      · exact absurd h (by simp)

lemma passNonneg_iff (p : JSParse) :
    (jsIsNaN p || jsLtZero p) = false ↔
      ((∃ neg m e, p = .val neg m e ∧
          0 ≤ (if neg then (-1 : ℝ) else 1) * (m : ℝ) * (10 : ℝ) ^ e) ∨
        p = .infinity false) := by
  cases p with
  | nan => simp [jsIsNaN, jsLtZero]
  | infinity s => cases s <;> simp [jsIsNaN, jsLtZero]
  | val neg m e =>
    simp only [jsIsNaN, jsLtZero, Bool.false_or]
    constructor
    · intro h
      refine Or.inl ⟨neg, m, e, rfl, (valNonneg_iff neg m e).mpr ?_⟩
      cases neg
      · exact Or.inl rfl
      · right
        simpa using h
    · rintro (⟨neg2, m2, e2, heq, hnn⟩ | h)
      · injection heq with h1 h2 h3
        subst h1
        subst h2
        subst h3
        obtain (hneg | hm) := (valNonneg_iff neg m e).mp hnn
        · subst hneg
          rfl
        · subst hm
          cases neg <;> simp
      · exact absurd h (by simp)

/-- C2 counterexample: the string "Infinity" does not parse as a finite
number (parseFloat yields positive Infinity), yet validation accepts the
triple ("Infinity", "12", "10"), so validation does not fail exactly on the
conditions the claim lists. -/
theorem C2_counterexample :
    parseFloat "Infinity" = JSParse.infinity false ∧
    validationFails "Infinity" "12" "10" = false :=
  ⟨by decide, by decide⟩

/-- C2 amended: validation succeeds exactly when each of the three inputs
either parses to a finite value with the required sign (monthly contribution
positive, rate nonnegative, tenure positive, judged on the real value
(-1)^neg * m * 10^e of the parse) or parses to positive Infinity; the check
is isNaN-based, so a non-finite positive parse is accepted, and the parsed
values are used unchanged. -/
theorem C2_validation_characterization (mS rS yS : String) :
    validationFails mS rS yS = false ↔
      (((∃ neg m e, parseFloat mS = .val neg m e ∧
           0 < (if neg then (-1 : ℝ) else 1) * (m : ℝ) * (10 : ℝ) ^ e) ∨
         parseFloat mS = .infinity false) ∧
       ((∃ neg m e, parseFloat rS = .val neg m e ∧
           0 ≤ (if neg then (-1 : ℝ) else 1) * (m : ℝ) * (10 : ℝ) ^ e) ∨
         parseFloat rS = .infinity false) ∧
       ((∃ neg m e, parseFloat yS = .val neg m e ∧
           0 < (if neg then (-1 : ℝ) else 1) * (m : ℝ) * (10 : ℝ) ^ e) ∨
         parseFloat yS = .infinity false)) := by
  have h1 := passStrict_iff (parseFloat mS)
  have h2 := passNonneg_iff (parseFloat rS)
  have h3 := passStrict_iff (parseFloat yS)
  rw [Bool.or_eq_false_iff] at h1 h2 h3
  unfold validationFails
  simp only [Bool.or_eq_false_iff]
  constructor
  · rintro ⟨⟨⟨⟨⟨a1, a2⟩, a3⟩, a4⟩, a5⟩, a6⟩
    exact ⟨h1.mp ⟨a1, a2⟩, h2.mp ⟨a3, a4⟩, h3.mp ⟨a5, a6⟩⟩
  · rintro ⟨c1, c2, c3⟩
    obtain ⟨a1, a2⟩ := h1.mpr c1
    obtain ⟨a3, a4⟩ := h2.mpr c2
    obtain ⟨a5, a6⟩ := h3.mpr c3
    exact ⟨⟨⟨⟨⟨a1, a2⟩, a3⟩, a4⟩, a5⟩, a6⟩

lemma rpow_half_101_lt : ((101 : ℝ) / 100) ^ ((1 : ℝ) / 2) < 201 / 200 := by
  have hb : (0 : ℝ) ≤ 101 / 100 := by norm_num
  have key : (((101 : ℝ) / 100) ^ ((1 : ℝ) / 2)) ^ (2 : ℕ) = 101 / 100 := by
    rw [← Real.rpow_natCast (((101 : ℝ) / 100) ^ ((1 : ℝ) / 2)) 2,
      ← Real.rpow_mul hb]
    norm_num
  by_contra hcon
  push_neg at hcon
  have h2 : ((201 : ℝ) / 200) ^ (2 : ℕ) ≤ (((101 : ℝ) / 100) ^ ((1 : ℝ) / 2)) ^ (2 : ℕ) :=
    pow_le_pow_left₀ (by norm_num) hcon 2
  rw [key] at h2
  norm_num at h2

/-- C3 counterexample: the claim fails twice over on the code.  At the
validated input (1000, 0, 5) the future value is NaN (unguarded division by
i = 0), and NaN >= x is false in JavaScript.  At (1, 12, 1/24), a tenure of
half a month (n = 1/2 < 1), the annuity factor ((1.01)^(1/2) - 1)/0.01 is
strictly below n, so futureValue < totalInvested even though the rate is
positive. -/
theorem C3_counterexample :
    ¬ jsGe (calculateSIPCore (.num 1000) (.num 0) (.num 5)).futureValue
        (calculateSIPCore (.num 1000) (.num 0) (.num 5)).totalInvested ∧
    ¬ jsGe (calculateSIPCore (.num 1) (.num 12) (.num (1 / 24))).futureValue
        (calculateSIPCore (.num 1) (.num 12) (.num (1 / 24))).totalInvested := by
  constructor
  · rw [calculateSIPCore_zero]
    simp [jsGe]
  · rw [calculateSIPCore_num 1 12 (1 / 24) (by norm_num) (by norm_num)]
    simp only [jsGe]
    rw [not_le]
    have h1 : ((1 : ℝ) + 12 / 12 / 100) = 101 / 100 := by norm_num
    have h2 : ((1 : ℝ) / 24 * 12) = 1 / 2 := by norm_num
    have h3 : ((12 : ℝ) / 12 / 100) = 1 / 100 := by norm_num
    rw [h1, h2, h3, one_mul, one_mul]
    have h4 : (((101 : ℝ) / 100) ^ ((1 : ℝ) / 2) - 1) / (1 / 100) =
        100 * ((101 : ℝ) / 100) ^ ((1 : ℝ) / 2) - 100 := by
      ring
    rw [h4]
    have := rpow_half_101_lt
    linarith

/-- C3 amended: for every ValidatedInputs with positive rate and a tenure of
at least one month (n = years * 12 >= 1), the future value is at least the
total invested.  The restriction is forced: at rate 0 the unguarded division
makes the future value NaN, and for n < 1 the annuity formula itself gives
negative returns. -/
theorem C3_returns_nonneg_amended (v : ValidatedInputs) (hr : 0 < v.ratePercent)
    (hn : 1 ≤ v.years * 12) :
    jsGe (calcOn v).futureValue (calcOn v).totalInvested := by
  rcases v with ⟨P, rate, years, hP, hra, hy⟩
  show jsGe (calculateSIPCore (.num P) (.num rate) (.num years)).futureValue
      (calculateSIPCore (.num P) (.num rate) (.num years)).totalInvested
  rw [calculateSIPCore_num P rate years hra (ne_of_gt hr)]
  simp only [jsGe]
  have hi : (0 : ℝ) < rate / 12 / 100 :=
    div_pos (div_pos hr (by norm_num)) (by norm_num)
  have hbern : 1 + (years * 12) * (rate / 12 / 100) ≤
      (1 + rate / 12 / 100) ^ (years * 12) :=
    one_add_mul_self_le_rpow_one_add (by linarith) hn
  have hfrac : years * 12 ≤
      ((1 + rate / 12 / 100) ^ (years * 12) - 1) / (rate / 12 / 100) := by
    rw [le_div_iff₀ hi]
    linarith
  exact mul_le_mul_of_nonneg_left hfrac (le_of_lt hP)

/-- C3 witness: the amended statement instantiated at the validated input
P = 5000, ratePercent = 12, years = 10. -/
theorem C3_returns_nonneg_witness :
    (0 : ℝ) < 12 ∧ (1 : ℝ) ≤ 10 * 12 ∧
    jsGe (calcOn ⟨5000, 12, 10, by norm_num, by norm_num, by norm_num⟩).futureValue
      (calcOn ⟨5000, 12, 10, by norm_num, by norm_num, by norm_num⟩).totalInvested :=
  ⟨by norm_num, by norm_num,
   C3_returns_nonneg_amended ⟨5000, 12, 10, by norm_num, by norm_num, by norm_num⟩
     (by norm_num) (by norm_num)⟩

/-- C4: with a positive rate the code returns exactly
futureValue = P * ((1 + i)^n - 1) / i, totalInvested = P * n and
estimatedReturns = futureValue - totalInvested, with i = ratePercent/12/100
and n = years * 12 not rounded to an integer. -/
theorem C4_positive_rate_formula (v : ValidatedInputs) (hr : 0 < v.ratePercent) :
    calcOn v =
      ⟨.num (v.P * (((1 + v.ratePercent / 12 / 100) ^ (v.years * 12) - 1) /
          (v.ratePercent / 12 / 100))),
       .num (v.P * (v.years * 12)),
       .num (v.P * (((1 + v.ratePercent / 12 / 100) ^ (v.years * 12) - 1) /
          (v.ratePercent / 12 / 100)) - v.P * (v.years * 12))⟩ := by
  rcases v with ⟨P, rate, years, hP, hra, hy⟩
  exact calculateSIPCore_num P rate years hra (ne_of_gt hr)

/-- C4 witness: the formula instantiated at the validated input
P = 5000, ratePercent = 12, years = 10 (i = 0.01, n = 120). -/
theorem C4_positive_rate_formula_witness :
    (0 : ℝ) < 12 ∧
    calcOn ⟨5000, 12, 10, by norm_num, by norm_num, by norm_num⟩ =
      ⟨.num ((5000 : ℝ) * ((((1 : ℝ) + 12 / 12 / 100) ^ ((10 : ℝ) * 12) - 1) /
          ((12 : ℝ) / 12 / 100))),
       .num ((5000 : ℝ) * ((10 : ℝ) * 12)),
       .num ((5000 : ℝ) * ((((1 : ℝ) + 12 / 12 / 100) ^ ((10 : ℝ) * 12) - 1) /
          ((12 : ℝ) / 12 / 100)) - (5000 : ℝ) * ((10 : ℝ) * 12))⟩ :=
  ⟨by norm_num,
   C4_positive_rate_formula ⟨5000, 12, 10, by norm_num, by norm_num, by norm_num⟩
     (by norm_num)⟩


lemma digitChar_isDigit (k : ℕ) (hk : k < 10) : (Nat.digitChar k).isDigit = true := by
  interval_cases k <;> decide

lemma natDigitsAux_all (fuel : ℕ) : ∀ (n : ℕ) (acc : List Char),
    acc.all Char.isDigit = true →
    (natDigitsAux fuel n acc).all Char.isDigit = true := by
  induction fuel with
  | zero =>
    intro n acc h
    exact h
  | succ f ih =>
    intro n acc h
    rw [natDigitsAux]
    split
    · rename_i hlt
      simp only [List.all_cons, Bool.and_eq_true]
      exact ⟨digitChar_isDigit n hlt, h⟩
    · refine ih (n / 10) _ ?_
      simp only [List.all_cons, Bool.and_eq_true]
      exact ⟨digitChar_isDigit (n % 10) (Nat.mod_lt n (by norm_num)), h⟩

lemma natDigits_all (n : ℕ) : (natDigits n).all Char.isDigit = true :=
  natDigitsAux_all (n + 1) n [] rfl

lemma gRev_all (p : Char → Bool) : ∀ (l : List Char) (k : ℕ), l.all p = true →
    (gRev k l).all (fun c => p c || c == ',') = true := by
  intro l
  induction l with
  | nil =>
    intro k h
    rfl
  | cons c rest ih =>
    intro k h
    simp only [List.all_cons, Bool.and_eq_true] at h
    rw [gRev]
    split
    · simp only [List.all_cons, Bool.and_eq_true]
      exact ⟨by simp, ⟨by simp [h.1], ih (k + 1) h.2⟩⟩
    · simp only [List.all_cons, Bool.and_eq_true]
      exact ⟨by simp [h.1], ih (k + 1) h.2⟩

lemma groupThrees_all (ds : List Char) (h : ds.all Char.isDigit = true) :
    (groupThrees ds).all (fun c => Char.isDigit c || c == ',') = true := by
  rw [groupThrees, List.all_reverse]
  exact gRev_all Char.isDigit ds.reverse 0 (by rw [List.all_reverse]; exact h)

/-- C5 counterexample: positive Infinity is a non-finite number, but the
code only guards against null and NaN, so it falls through to toFixed and
produces "₹ Infinity" rather than the canonical zero-amount string. -/
theorem C5_counterexample :
    formatCurrency (JSValue.infinity false) = "₹ Infinity" ∧
    formatCurrency (JSValue.infinity false) ≠ "₹ 0.00" :=
  ⟨by decide, by decide⟩

/-- C5 amended: null and NaN produce "₹ 0.00" (an Infinity instead renders
as "₹ Infinity" or "₹ -Infinity"); every finite value formats as the rupee
sign and a space, then an integer part made only of digits, commas and a
possible leading minus, then a dot and exactly two decimal digits; and
1161695.38 formats as "₹ 1,161,695.38". -/
theorem C5_format_amended :
    formatCurrency .null = "₹ 0.00" ∧
    formatCurrency .nan = "₹ 0.00" ∧
    formatCurrency (.num ⟨116169538, 100⟩) = "₹ 1,161,695.38" ∧
    ∀ (n : ℤ) (d : ℕ), ∃ (pre : List Char) (c1 c2 : Char),
      formatCurrency (.num ⟨n, d⟩) = "₹ " ++ String.mk (pre ++ ['.', c1, c2]) ∧
      c1.isDigit = true ∧ c2.isDigit = true ∧
      pre.all (fun c => c.isDigit || c == ',' || c == '-') = true := by
  refine ⟨by decide, by decide, by decide, ?_⟩
  intro n d
  refine ⟨(if n < 0 then ['-'] else []) ++
      groupThrees (natDigits ((200 * n.natAbs + d) / (2 * d) / 100)),
    Nat.digitChar ((200 * n.natAbs + d) / (2 * d) % 100 / 10),
    Nat.digitChar ((200 * n.natAbs + d) / (2 * d) % 10), ?_, ?_, ?_, ?_⟩
  · simp only [formatCurrency]
    congr 1
    simp [List.append_assoc]
  · exact digitChar_isDigit _ (by omega)
  · exact digitChar_isDigit _ (Nat.mod_lt _ (by norm_num))
  · rw [List.all_append]
    refine Bool.and_eq_true_iff.mpr ⟨?_, ?_⟩
    · split
      · decide
      · decide
    · have h := groupThrees_all (natDigits ((200 * n.natAbs + d) / (2 * d) / 100))
        (natDigits_all _)
      rw [List.all_eq_true] at h ⊢
      intro c hc
      have hcd := h c hc
      simp only [Bool.or_eq_true] at hcd ⊢
      rcases hcd with h1 | h1
      · exact Or.inl (Or.inl h1)
      · exact Or.inl (Or.inr h1)
